import Mathlib

/-!
Verification of the resilient RPC client of the MaiMaiL dashboard
(`ApiClient` in the SvelteKit source, `src/lib/api.ts`).

The embedding models the client faithfully:
* `Json` — the payloads carried in the envelope's `data` field;
* `Envelope` — the wire envelope (`type`, `msg`, `data`) as the client reads it;
* `ClientState` — the `sessionId` field together with the persisted
  `localStorage` entry `session_id`;
* `AttemptOutcome` — what one `fetch` attempt can produce: the promise
  rejects, or a response with a status and a body that either parses to an
  envelope or fails to parse;
* `request` — the retry loop of `ApiClient.request`, written as explicit
  state passing over attempt outcomes, recording the number of fetches
  performed and the trace of back-off sleeps.
-/

namespace MaiMaiL

/-- JSON values, the shape of the envelope's `data` payload. -/
inductive Json where
  | null
  | bool (b : Bool)
  | num (n : Int)
  | str (s : String)
  | arr (elems : List Json)
  | obj (fields : List (String × Json))

/-- JavaScript truthiness of a JSON value (`null`, `false`, `0` and `""` are
falsy; arrays and objects are always truthy). -/
def jsTruthy : Json → Bool
  | .null => false
  | .bool b => b
  | .num n => n != 0
  | .str s => s != ""
  | .arr _ => true
  | .obj _ => true

/-- The envelope's `msg` field: either one string or a list of strings. -/
inductive MsgVal where
  | str (s : String)
  | list (xs : List String)
deriving DecidableEq

/-- Message formatting of `ApiClient.request` line 117:
`Array.isArray(data.msg) ? data.msg.join(', ') : data.msg`. -/
def formatMsg : MsgVal → String
  | .str s => s
  | .list xs => String.intercalate ", " xs

/-- The response envelope as `ApiClient.request` reads it: the `type`
classification (`danger` marks an application error), the `msg` field and the
optional `data` payload. -/
structure Envelope where
  type : Option String
  msg : MsgVal
  data : Option Json

/-- Errors thrown inside `ApiClient.request`.  Each constructor corresponds to
one `throw new Error(...)` site (or to an error produced by `fetch` /
`response.json()`). -/
inductive Err where
  | unauthorized
  | forbidden
  | appError (message : String)
  | fetchErr (message : String)
  | parseErr (message : String)
  | maxRetriesExceeded
deriving DecidableEq

/-- The literal message string carried by each error. -/
def errMessage : Err → String
  | .unauthorized => "Unauthorized - please login again"
  | .forbidden => "Forbidden - insufficient permissions"
  | .appError m => m
  | .fetchErr m => m
  | .parseErr m => m
  | .maxRetriesExceeded => "Maximum retries exceeded"

/-- What `await response.json()` yields for one response: a parsed envelope or
a parse failure (a thrown error). -/
inductive BodyResult where
  | parsed (env : Envelope)
  | parseError (message : String)

/-- Outcome of one `await fetch(url, options)`: the promise rejects (network
failure, no response received) or a response arrives with a status code and a
body. -/
inductive AttemptOutcome where
  | fetchError (message : String)
  | response (status : Nat) (body : BodyResult)

/-- Session state of the client: the in-memory `sessionId` field and the
persisted `localStorage` entry `session_id`. -/
structure ClientState where
  sessionId : Option String
  storage : Option String
deriving DecidableEq

/-- Truthiness of a nullable string (`null` and `""` are falsy). -/
def jsTruthyStr : Option String → Bool
  | some s => s != ""
  | none => false

/-- `ApiClient.setSession` (lines 45-54): store the id in the field, and
persist it when truthy (`localStorage.setItem`) or remove the persisted entry
otherwise (`localStorage.removeItem`).  The browser window is assumed
present. -/
def setSession (_st : ClientState) (sid : Option String) : ClientState :=
  { sessionId := sid, storage := if jsTruthyStr sid then sid else none }

/-- `Response.ok` of the fetch API: status in the range 200-299. -/
def respOk (status : Nat) : Bool := 200 ≤ status && status ≤ 299

/-- One step of the try body. `ret` models reaching `return data`, `thrown`
models a `throw` inside the `try` (which the `catch` will receive), and
`retryContinue` models the `continue` of the 5xx branch. -/
inductive TryStep where
  | ret (env : Envelope)
  | thrown (e : Err)
  | retryContinue

/-- Lines 113-119 of `ApiClient.request`: parse the body (a parse failure is a
thrown error), then `if (data.type === 'danger')` throw the formatted message,
else return the envelope. -/
def readEnvelope (body : BodyResult) : TryStep :=
  match body with
  | .parseError m => .thrown (.parseErr m)
  | .parsed env =>
    if env.type = some "danger" then .thrown (.appError (formatMsg env.msg))
    else .ret env

/-- The `try` body of one loop iteration (lines 92-121).  A rejected fetch is a
thrown error.  For a response: if `!response.ok`, a 401 clears the session and
throws, a 403 throws, a 5xx with attempts remaining continues the loop; any
other case (including `response.ok`) falls through to `response.json()` and the
envelope check. -/
def requestAttempt (retries attempt : Nat) (o : AttemptOutcome) (st : ClientState) :
    ClientState × TryStep :=
  match o with
  | .fetchError m => (st, .thrown (.fetchErr m))
  | .response status body =>
    if respOk status then (st, readEnvelope body)
    else if status = 401 then (setSession st none, .thrown .unauthorized)
    else if status = 403 then (st, .thrown .forbidden)
    else if 500 ≤ status ∧ attempt < retries then (st, .retryContinue)
    else (st, readEnvelope body)

/-- Result of a whole `ApiClient.request` call: the returned envelope or the
thrown error. -/
inductive RequestResult where
  | ok (env : Envelope)
  | err (e : Err)

/-- Trace of one `ApiClient.request` call: its result, the number of `fetch`
attempts performed, the back-off sleeps in order, and the final session
state. -/
structure RunResult where
  result : RequestResult
  attempts : Nat
  sleeps : List Nat
  state : ClientState

/-- The retry loop (lines 91-131), by recursion on the remaining loop
iterations (`fuel = retries + 1 - attempt` at entry).  When the fuel runs out
the loop has exited and the trailing
`throw new Error('Maximum retries exceeded')` (line 131) runs.  A `thrown`
step is what the `catch` (lines 122-128) receives: rethrown at the last
attempt, otherwise sleep `2^attempt * 1000` and retry.  The `continue` of the
5xx branch sleeps the same amount (line 108). -/
def requestLoop (retries : Nat) (outcomes : Nat → AttemptOutcome) :
    Nat → Nat → ClientState → Nat → List Nat → RunResult
  | 0, _attempt, st, made, sl => ⟨.err .maxRetriesExceeded, made, sl, st⟩
  | fuel + 1, attempt, st, made, sl =>
    match requestAttempt retries attempt (outcomes attempt) st with
    | (st', .ret env) => ⟨.ok env, made + 1, sl, st'⟩
    | (st', .retryContinue) =>
      requestLoop retries outcomes fuel (attempt + 1) st' (made + 1) (sl ++ [2 ^ attempt * 1000])
    | (st', .thrown e) =>
      if attempt = retries then ⟨.err e, made + 1, sl, st'⟩
      else
        requestLoop retries outcomes fuel (attempt + 1) st' (made + 1) (sl ++ [2 ^ attempt * 1000])

/-- `ApiClient.request` (lines 66-132): run the loop from attempt 0 with
fuel `retries + 1`.  `outcomes n` is what the fetch of attempt `n` produces;
`retries` is the retry budget (default 3 in the source). -/
def request (retries : Nat) (outcomes : Nat → AttemptOutcome) (st : ClientState) : RunResult :=
  requestLoop retries outcomes (retries + 1) 0 st 0 []

/-! Headers and request options (lines 72-89, built once, before the loop). -/

/-- Lines 73-79: the headers object starts with `Content-Type`, and
`X-API-Key` is added when the configured key is truthy (a non-empty
string). -/
def buildHeaders (apiKey : String) : List (String × String) :=
  ("Content-Type", "application/json") ::
    (if apiKey != "" then [("X-API-Key", apiKey)] else [])

/-- Headers carried by the fetch of attempt `attempt`.  The source builds the
`options` object once before the loop (lines 81-85) and passes the same object
to every `fetch(url, options)` (line 93), so each attempt carries the same
headers, which never include the session id — cookies are delegated to the
browser via `credentials: 'include'`. -/
def attemptHeaders (apiKey : String) (_attempt : Nat) : List (String × String) :=
  buildHeaders apiKey

/-- Transport verb, passed through `request`'s `method` parameter. -/
inductive Method where
  | GET
  | POST
  | PUT
  | DELETE
deriving DecidableEq

mutual

/-- Serialization of a JSON value, modelling `JSON.stringify` on the payloads
the client sends. -/
def jsonStringify : Json → String
  | .null => "null"
  | .bool b => cond b "true" "false"
  | .num n => toString n
  | .str s => "\"" ++ s ++ "\""
  | .arr xs => "[" ++ jsonStringifyElems xs ++ "]"
  | .obj fs => "\x7b" ++ jsonStringifyFields fs ++ "\x7d"

/-- Comma-separated serialization of array elements. -/
def jsonStringifyElems : List Json → String
  | [] => ""
  | [x] => jsonStringify x
  | x :: y :: xs => jsonStringify x ++ "," ++ jsonStringifyElems (y :: xs)

/-- Comma-separated serialization of object fields. -/
def jsonStringifyFields : List (String × Json) → String
  | [] => ""
  | [(k, v)] => "\"" ++ k ++ "\":" ++ jsonStringify v
  | (k, v) :: f :: fs =>
    "\"" ++ k ++ "\":" ++ jsonStringify v ++ "," ++ jsonStringifyFields (f :: fs)

end

/-- The `options` object of lines 81-89: the verb, the headers, included
credentials, and — only when `body` is truthy and the verb is `POST` or `PUT`
— the serialized body. -/
structure RequestOptions where
  method : Method
  headers : List (String × String)
  credentialsInclude : Bool
  body : Option String

/-- Lines 81-89: build the fetch options.  `if (body && (method === 'POST' ||
method === 'PUT')) options.body = JSON.stringify(body)`. -/
def buildOptions (method : Method) (apiKey : String) (body : Option Json) : RequestOptions :=
  { method := method
    headers := buildHeaders apiKey
    credentialsInclude := true
    body :=
      match body with
      | some b =>
        if jsTruthy b && (method == .POST || method == .PUT) then some (jsonStringify b)
        else none
      | none => none }

/-! URL construction (lines 59-61). `encodeURIComponent` is modelled by the
ECMAScript definition: characters `A-Z a-z 0-9 - _ . ! ~ * ' ( )` are kept,
every other character is replaced by the percent-encoding of its UTF-8
bytes. -/

/-- Characters `encodeURIComponent` leaves unescaped, by code point:
digits, upper-case and lower-case letters, and `- _ . ! ~ * ' ( )`. -/
def uriUnreserved (c : Char) : Bool :=
  (48 ≤ c.toNat && c.toNat ≤ 57) || (65 ≤ c.toNat && c.toNat ≤ 90) ||
  (97 ≤ c.toNat && c.toNat ≤ 122) ||
  c.toNat == 45 || c.toNat == 95 || c.toNat == 46 || c.toNat == 33 ||
  c.toNat == 126 || c.toNat == 42 || c.toNat == 39 || c.toNat == 40 || c.toNat == 41

/-- Upper-case hexadecimal digit for `n < 16`. -/
def hexDigitChar (n : Nat) : Char :=
  if n < 10 then Char.ofNat (48 + n) else Char.ofNat (55 + n)

/-- UTF-8 encoding of the code point `n` as a byte list. -/
def utf8Bytes (n : Nat) : List Nat :=
  if n < 128 then [n]
  else if n < 2048 then [192 + n / 64, 128 + n % 64]
  else if n < 65536 then [224 + n / 4096, 128 + n / 64 % 64, 128 + n % 64]
  else [240 + n / 262144, 128 + n / 4096 % 64, 128 + n / 64 % 64, 128 + n % 64]

/-- Percent-encoding of one character: `%XY` for each UTF-8 byte. -/
def pctBytes (c : Char) : List Char :=
  (utf8Bytes c.toNat).flatMap
    (fun b => [Char.ofNat 37, hexDigitChar (b / 16), hexDigitChar (b % 16)])

/-- Character-list version of `encodeURIComponent`. -/
def encodeCharList : List Char → List Char
  | [] => []
  | c :: cs => (if uriUnreserved c then [c] else pctBytes c) ++ encodeCharList cs

/-- Model of the ECMAScript builtin `encodeURIComponent`. -/
def encodeURIComponent (s : String) : String :=
  String.mk (encodeCharList s.data)

/-- `ApiClient.buildUrl` (lines 59-61):
`${this.baseUrl}?query=${encodeURIComponent(query)}`. -/
def buildUrl (baseUrl : String) (query : String) : String :=
  baseUrl ++ "?query=" ++ encodeURIComponent query

/-! Wrapper methods built on `request`. -/

/-- JavaScript `x || null` on an optional JSON value: a present but falsy
value also collapses to `null`. -/
def jsOrNull : Option Json → Option Json
  | some v => if jsTruthy v then some v else none
  | none => none

/-- `ApiClient.getMailbox` (lines 174-177): forwards `request` and returns
`response.data!` — the `data` field as is (the `!` is only a type assertion,
absent `data` flows through as `undefined`). -/
def getMailbox (retries : Nat) (outcomes : Nat → AttemptOutcome) (st : ClientState) :
    Except Err (Option Json) :=
  match (request retries outcomes st).result with
  | .ok env => .ok env.data
  | .err e => .error e

/-- `ApiClient.getAuthStatus` (lines 158-165): `try { return response.data ||
null } catch { return null }`. -/
def getAuthStatus (retries : Nat) (outcomes : Nat → AttemptOutcome) (st : ClientState) :
    Option Json :=
  match (request retries outcomes st).result with
  | .ok env => jsOrNull env.data
  | .err _ => none

/-- `ApiClient.getAnalysis` (lines 222-232): same catch-to-null shape as
`getAuthStatus`, for the analysis query. -/
def getAnalysis (retries : Nat) (outcomes : Nat → AttemptOutcome) (st : ClientState) :
    Option Json :=
  match (request retries outcomes st).result with
  | .ok env => jsOrNull env.data
  | .err _ => none

/-! Concrete inputs for scenario runs. -/

/-- A benign success envelope carrying the payload `{"a": 1}`. -/
def successEnvelope : Envelope :=
  ⟨some "success", .str "ok", some (.obj [("a", .num 1)])⟩

/-- Attempt outcomes of the scenario-B run: HTTP 401 on the first attempt,
then a 2xx success envelope on every later attempt. -/
def c5Outcomes : Nat → AttemptOutcome := fun n =>
  if n = 0 then .response 401 (.parseError "Unexpected token")
  else .response 200 (.parsed successEnvelope)

/-! Helper lemmas about one attempt and about the loop. -/

/-- Reading the body never produces the `continue` of the 5xx branch. -/
theorem readEnvelope_ne_retryContinue (body : BodyResult) :
    readEnvelope body ≠ .retryContinue := by
  cases body with
  | parseError m => simp [readEnvelope]
  | parsed env =>
    simp only [readEnvelope]
    split <;> simp

/-- Reading the body never throws the post-loop maximum-retries error. -/
theorem readEnvelope_thrown_ne_max (body : BodyResult) (e : Err)
    (h : readEnvelope body = .thrown e) : e ≠ .maxRetriesExceeded := by
  cases body with
  | parseError m =>
    simp only [readEnvelope] at h
    cases h
    simp
  | parsed env =>
    simp only [readEnvelope] at h
    split at h
    · cases h; simp
    · cases h

/-- The `continue` of the 5xx branch is guarded by `attempt < retries`. -/
theorem requestAttempt_retryContinue_lt (retries attempt : Nat) (o : AttemptOutcome)
    (st : ClientState) (h : (requestAttempt retries attempt o st).2 = .retryContinue) :
    attempt < retries := by
  cases o with
  | fetchError m => simp [requestAttempt] at h
  | response status body =>
    simp only [requestAttempt] at h
    split at h
    · exact absurd h (readEnvelope_ne_retryContinue body)
    split at h
    · simp at h
    split at h
    · simp at h
    split at h
    · next hcond => exact hcond.2
    · exact absurd h (readEnvelope_ne_retryContinue body)

/-- No `throw` inside the `try` body produces the post-loop
maximum-retries error: that error is distinct from every in-loop error. -/
theorem requestAttempt_thrown_ne_max (retries attempt : Nat) (o : AttemptOutcome)
    (st : ClientState) (e : Err) (h : (requestAttempt retries attempt o st).2 = .thrown e) :
    e ≠ .maxRetriesExceeded := by
  cases o with
  | fetchError m =>
    simp only [requestAttempt] at h
    cases h
    simp
  | response status body =>
    simp only [requestAttempt] at h
    split at h
    · exact readEnvelope_thrown_ne_max body e h
    split at h
    · simp at h; rw [← h]; simp
    split at h
    · simp at h; rw [← h]; simp
    split at h
    · simp at h
    · exact readEnvelope_thrown_ne_max body e h

/-- Loop invariant: starting an iteration with `attempt ≤ retries` and the
right amount of fuel, the loop never falls through to the post-loop
maximum-retries error. -/
theorem requestLoop_ne_max (retries : Nat) (outcomes : Nat → AttemptOutcome) :
    ∀ (fuel attempt : Nat) (st : ClientState) (made : Nat) (sl : List Nat),
      attempt + fuel = retries + 1 → attempt ≤ retries →
      (requestLoop retries outcomes fuel attempt st made sl).result ≠
        .err .maxRetriesExceeded := by
  intro fuel
  induction fuel with
  | zero => intro attempt st made sl hsum hle; omega
  | succ f ih =>
    intro attempt st made sl hsum hle
    simp only [requestLoop]
    rcases hstep : requestAttempt retries attempt (outcomes attempt) st with ⟨st', step⟩
    cases step with
    | ret env => simp
    | retryContinue =>
      have hlt : attempt < retries :=
        requestAttempt_retryContinue_lt retries attempt (outcomes attempt) st (by rw [hstep])
      exact ih (attempt + 1) st' (made + 1) (sl ++ [2 ^ attempt * 1000]) (by omega) (by omega)
    | thrown e =>
      have hne : e ≠ .maxRetriesExceeded :=
        requestAttempt_thrown_ne_max retries attempt (outcomes attempt) st e (by rw [hstep])
      by_cases heq : attempt = retries
      · simp only [if_pos heq]
        intro hcontra
        cases hcontra
        exact hne rfl
      · have hlt : attempt < retries := lt_of_le_of_ne hle heq
        simp only [if_neg heq]
        exact ih (attempt + 1) st' (made + 1) (sl ++ [2 ^ attempt * 1000]) (by omega) (by omega)

/-- Loop invariant for the back-off trace: every path that sleeps does so for
`2 ^ attempt * 1000` milliseconds right before incrementing the attempt index,
so on exit the sleep trace is exactly `2 ^ a * 1000` for the attempt indices
`a` before the last one. -/
theorem requestLoop_sleeps (retries : Nat) (outcomes : Nat → AttemptOutcome) :
    ∀ (fuel attempt : Nat) (st : ClientState) (made : Nat) (sl : List Nat),
      attempt + fuel = retries + 1 → attempt ≤ retries → made = attempt →
      sl = (List.range attempt).map (fun a => 2 ^ a * 1000) →
      (requestLoop retries outcomes fuel attempt st made sl).sleeps =
        (List.range ((requestLoop retries outcomes fuel attempt st made sl).attempts - 1)).map
          (fun a => 2 ^ a * 1000) := by
  intro fuel
  induction fuel with
  | zero => intro attempt st made sl hsum hle _ _; omega
  | succ f ih =>
    intro attempt st made sl hsum hle hmade hsl
    simp only [requestLoop]
    rcases hstep : requestAttempt retries attempt (outcomes attempt) st with ⟨st', step⟩
    cases step with
    | ret env =>
      simp only
      rw [hsl, hmade, Nat.add_sub_cancel]
    | retryContinue =>
      have hlt : attempt < retries :=
        requestAttempt_retryContinue_lt retries attempt (outcomes attempt) st (by rw [hstep])
      exact ih (attempt + 1) st' (made + 1) (sl ++ [2 ^ attempt * 1000]) (by omega) (by omega)
        (by omega) (by simp [hsl, List.range_succ])
    | thrown e =>
      by_cases heq : attempt = retries
      · simp only [if_pos heq]
        rw [hsl, hmade, Nat.add_sub_cancel]
      · have hlt : attempt < retries := lt_of_le_of_ne hle heq
        simp only [if_neg heq]
        exact ih (attempt + 1) st' (made + 1) (sl ++ [2 ^ attempt * 1000]) (by omega) (by omega)
          (by omega) (by simp [hsl, List.range_succ])

/-- When every attempt yields a 2xx response whose envelope is classified
`danger`, every iteration throws the formatted application error, so the loop
ends by rethrowing it at the last attempt. -/
theorem requestLoop_const_danger (retries : Nat) (m : MsgVal) (d : Option Json)
    (status : Nat) (hok : respOk status = true) :
    ∀ (fuel attempt : Nat) (st : ClientState) (made : Nat) (sl : List Nat),
      attempt + fuel = retries + 1 → attempt ≤ retries →
      (requestLoop retries (fun _ => .response status (.parsed ⟨some "danger", m, d⟩))
          fuel attempt st made sl).result = .err (.appError (formatMsg m)) := by
  intro fuel
  induction fuel with
  | zero => intro attempt st made sl hsum hle; omega
  | succ f ih =>
    intro attempt st made sl hsum hle
    simp only [requestLoop, requestAttempt, hok, if_true, readEnvelope, if_pos rfl]
    by_cases heq : attempt = retries
    · simp only [if_pos heq]
    · have hlt : attempt < retries := lt_of_le_of_ne hle heq
      simp only [if_neg heq]
      exact ih (attempt + 1) st (made + 1) (sl ++ [2 ^ attempt * 1000]) (by omega) (by omega)

/-- Reading an index out of a mapped range gives the function's value there. -/
theorem get_of_eq_map_range (l : List Nat) (f : Nat → Nat) (m : Nat)
    (hl : l = (List.range m).map f) (k : Nat) (h : k < l.length) :
    l.get ⟨k, h⟩ = f k := by
  subst hl
  simp only [List.get_eq_getElem, List.getElem_map, List.getElem_range]

/-! Claim theorems. -/

/-- C9: for every retry budget and every sequence of transport outcomes
(responses of any status, bodies that parse or fail to parse, fetch
rejections), `ApiClient.request` returns or throws from inside the retry loop
itself; the trailing `throw new Error('Maximum retries exceeded')` after the
loop is unreachable. -/
theorem c9_trailing_throw_unreachable (retries : Nat) (outcomes : Nat → AttemptOutcome)
    (st : ClientState) :
    (request retries outcomes st).result ≠ .err .maxRetriesExceeded :=
  requestLoop_ne_max retries outcomes (retries + 1) 0 st 0 [] (by omega) (by omega)

/-- C4: in every `ApiClient.request` run the sleep trace is exactly
`2 ^ a * 1000` milliseconds after failed attempt index `a` (starting at 0), so
the delay before the k-th retry (0-indexed entry `k` of the trace) equals
`1000 * 2 ^ k` and consecutive delays are monotonically non-decreasing. -/
theorem c4_backoff (retries : Nat) (outcomes : Nat → AttemptOutcome) (st : ClientState) :
    (request retries outcomes st).sleeps =
      (List.range ((request retries outcomes st).attempts - 1)).map (fun a => 2 ^ a * 1000) ∧
    (∀ (k : Nat) (h : k < (request retries outcomes st).sleeps.length),
      (request retries outcomes st).sleeps.get ⟨k, h⟩ = 2 ^ k * 1000) ∧
    (∀ (k : Nat) (h : k + 1 < (request retries outcomes st).sleeps.length),
      (request retries outcomes st).sleeps.get ⟨k, Nat.lt_of_succ_lt h⟩ ≤
        (request retries outcomes st).sleeps.get ⟨k + 1, h⟩) := by
  have hs : (request retries outcomes st).sleeps =
      (List.range ((request retries outcomes st).attempts - 1)).map (fun a => 2 ^ a * 1000) :=
    requestLoop_sleeps retries outcomes (retries + 1) 0 st 0 [] (by omega) (by omega) rfl rfl
  have hget : ∀ (k : Nat) (h : k < (request retries outcomes st).sleeps.length),
      (request retries outcomes st).sleeps.get ⟨k, h⟩ = 2 ^ k * 1000 := fun k h =>
    get_of_eq_map_range _ _ _ hs k h
  refine ⟨hs, hget, ?_⟩
  intro k h
  rw [hget k (Nat.lt_of_succ_lt h), hget (k + 1) h]
  exact Nat.mul_le_mul_right 1000 (Nat.pow_le_pow_right (by omega) (by omega))

/-- C4 witness: with budget 2 and a backend that never answers, the two
back-off sleeps are 1000 ms then 2000 ms, non-decreasing. -/
theorem c4_backoff_witness :
    (request 2 (fun _ => .fetchError "timeout") ⟨none, none⟩).sleeps.get ⟨0, by decide⟩ ≤
      (request 2 (fun _ => .fetchError "timeout") ⟨none, none⟩).sleeps.get ⟨1, by decide⟩ :=
  (c4_backoff 2 (fun _ => .fetchError "timeout") ⟨none, none⟩).2.2 0 (by decide)

/-- C1: refuted as stated — the fatal classes are in fact retried.  With the
default budget of 3 retries and a backend answering HTTP 403 on every attempt,
the `throw` of the 403 branch lands in the generic `catch`, which sleeps and
retries: four transport attempts are made (not one) before `Forbidden` is
finally raised. -/
theorem c1_fatal_classes_retried :
    (request 3 (fun _ => .response 403 (.parsed successEnvelope)) ⟨none, none⟩).attempts = 4 ∧
    (request 3 (fun _ => .response 403 (.parsed successEnvelope)) ⟨none, none⟩).result =
      .err .forbidden ∧
    (request 3 (fun _ => .response 403 (.parsed successEnvelope)) ⟨none, none⟩).sleeps =
      [1000, 2000, 4000] :=
  ⟨rfl, rfl, rfl⟩

/-- C2: refuted as stated — with budget 1 and every fetch rejecting with a
connection failure, exactly two transport attempts are made, but the error
finally raised is the rethrown fetch error of the last attempt, not the
distinct maximum-retries error of line 131. -/
theorem c2_rethrows_last_error_not_retries_exhausted :
    (request 1 (fun _ => .fetchError "connection refused") ⟨none, none⟩).attempts = 2 ∧
    (request 1 (fun _ => .fetchError "connection refused") ⟨none, none⟩).result =
      .err (.fetchErr "connection refused") ∧
    Err.fetchErr "connection refused" ≠ Err.maxRetriesExceeded :=
  ⟨rfl, rfl, by decide⟩

/-- C5: at the failing input (session token "tok" held, budget 1, HTTP 401 on
the first attempt, 2xx success on the second) the 401 does clear the session —
afterwards `sessionId` and the persisted `session_id` entry are both absent —
but the call does not raise `Unauthorized` immediately: the thrown error is
caught, the call retries, and it returns the second attempt's success envelope
after two attempts. -/
theorem c5_session_cleared_but_401_retried :
    (request 1 c5Outcomes ⟨some "tok", some "tok"⟩).state = ⟨none, none⟩ ∧
    (request 1 c5Outcomes ⟨some "tok", some "tok"⟩).attempts = 2 ∧
    (request 1 c5Outcomes ⟨some "tok", some "tok"⟩).result = .ok successEnvelope :=
  ⟨rfl, rfl, rfl⟩

/-- C3: refuted as stated — the claim's iff fails.  While the session token
"tok" is held, the headers of attempt 0 contain no entry carrying the token:
the client never puts the session id into a header (and the headers object is
built once, before the loop, not rebuilt per attempt). -/
theorem c3_counterexample :
    ({ sessionId := some "tok", storage := some "tok" } : ClientState).sessionId = some "tok" ∧
    ¬ ∃ p ∈ attemptHeaders "" 0, p.2 = "tok" :=
  ⟨rfl, by decide⟩

/-- C3 (amended): the request headers are built once per call, before the
first attempt, and every attempt carries those same headers:
`Content-Type: application/json` is always present, `X-API-Key` is present
exactly when an API key is configured, and the session token never appears in
any header — the session travels only as a browser-managed cookie via
`credentials: 'include'`, so clearing the session during the call does not
change the headers of later attempts. -/
theorem c3_headers_constant (apiKey : String) (attempt : Nat) :
    attemptHeaders apiKey attempt = attemptHeaders apiKey 0 ∧
    ("Content-Type", "application/json") ∈ attemptHeaders apiKey attempt ∧
    ((∃ p ∈ attemptHeaders apiKey attempt, p.1 = "X-API-Key") ↔ apiKey ≠ "") ∧
    (∀ tok : String, tok ≠ "application/json" → tok ≠ apiKey →
      ¬ ∃ p ∈ attemptHeaders apiKey attempt, p.2 = tok) := by
  refine ⟨rfl, List.mem_cons_self _ _, ?_, ?_⟩
  · by_cases hk : apiKey = ""
    · subst hk
      simp only [attemptHeaders, buildHeaders]
      constructor
      · intro h
        exact absurd h (by decide)
      · intro h
        exact absurd rfl h
    · constructor
      · intro _
        exact hk
      · intro _
        refine ⟨("X-API-Key", apiKey), ?_, rfl⟩
        simp [attemptHeaders, buildHeaders, bne_iff_ne, hk]
  · intro tok h1 h2 hex
    obtain ⟨p, hp, hval⟩ := hex
    simp only [attemptHeaders, buildHeaders, List.mem_cons] at hp
    rcases hp with hp | hp
    · subst hp
      exact h1 hval.symm
    · split at hp
      · rcases List.mem_singleton.mp hp with rfl
        exact h2 hval.symm
      · exact absurd hp (List.not_mem_nil p)

/-- C3 witness: with the key "key" configured, no attempt's headers carry the
held session token "tok". -/
theorem c3_headers_constant_witness :
    ¬ ∃ p ∈ attemptHeaders "key" 1, p.2 = "tok" :=
  (c3_headers_constant "key" 1).2.2.2 "tok" (by decide) (by decide)

/-- C6: a response with 2xx transport status whose envelope kind is
success, warning or info is accepted on the spot: the call returns after one
attempt with the envelope unchanged, the wrapper receives exactly the
envelope's `data` field, and an absent `data` flows through as the absent
default instead of an exception. -/
theorem c6_envelope_passthrough (retries : Nat) (outcomes : Nat → AttemptOutcome)
    (st : ClientState) (status : Nat) (env : Envelope)
    (hok : respOk status = true)
    (hkind : env.type = some "success" ∨ env.type = some "warning" ∨ env.type = some "info")
    (h0 : outcomes 0 = .response status (.parsed env)) :
    (request retries outcomes st).result = .ok env ∧
    (request retries outcomes st).attempts = 1 ∧
    getMailbox retries outcomes st = .ok env.data ∧
    (env.data = none → getMailbox retries outcomes st = .ok none) := by
  have hne : ¬ (env.type = some "danger") := by
    rcases hkind with h | h | h <;> rw [h] <;> simp
  have hloop : request retries outcomes st = ⟨.ok env, 0 + 1, [], st⟩ := by
    simp [request, requestLoop, h0, requestAttempt, hok, readEnvelope, hne]
  refine ⟨by rw [hloop], by rw [hloop], ?_, ?_⟩
  · simp [getMailbox, hloop]
  · intro hd
    simp [getMailbox, hloop, hd]

/-- C6 witness: a 200 response with a success envelope carrying `{"a": 1}` is
returned unchanged after one attempt, and the mailbox wrapper yields exactly
that payload. -/
theorem c6_envelope_passthrough_witness :
    (request 3 (fun _ => .response 200 (.parsed successEnvelope)) ⟨none, none⟩).result =
      .ok successEnvelope ∧
    getMailbox 3 (fun _ => .response 200 (.parsed successEnvelope)) ⟨none, none⟩ =
      .ok (some (.obj [("a", Json.num 1)])) :=
  ⟨(c6_envelope_passthrough 3 _ _ 200 successEnvelope rfl (Or.inl rfl) rfl).1,
   (c6_envelope_passthrough 3 _ _ 200 successEnvelope rfl (Or.inl rfl) rfl).2.2.1⟩

/-- C7: when the backend answers 2xx with a `danger` envelope on every
attempt, the call raises the application error carrying the envelope's
message: the single string itself when `msg` is a string, the elements joined
with ", " when `msg` is a list. -/
theorem c7_danger_message (retries : Nat) (m : MsgVal) (d : Option Json) (st : ClientState) :
    (request retries (fun _ => .response 200 (.parsed ⟨some "danger", m, d⟩)) st).result =
      .err (.appError (formatMsg m)) ∧
    (∀ s, m = .str s → formatMsg m = s) ∧
    (∀ xs, m = .list xs → formatMsg m = String.intercalate ", " xs) := by
  refine ⟨?_, ?_, ?_⟩
  · exact requestLoop_const_danger retries m d 200 rfl (retries + 1) 0 st 0 []
      (by omega) (by omega)
  · intro s h
    rw [h]
    rfl
  · intro xs h
    rw [h]
    rfl

/-- C7 witness: a 200 response with a `danger` envelope whose message is the
list `["username taken", "domain invalid"]` makes the call raise the
application error "username taken, domain invalid". -/
theorem c7_danger_message_witness :
    (request 3 (fun _ => .response 200
        (.parsed ⟨some "danger", .list ["username taken", "domain invalid"], none⟩))
      ⟨none, none⟩).result = .err (.appError "username taken, domain invalid") ∧
    formatMsg (.list ["username taken", "domain invalid"]) =
      String.intercalate ", " ["username taken", "domain invalid"] :=
  ⟨(c7_danger_message 3 (.list ["username taken", "domain invalid"]) none ⟨none, none⟩).1,
   (c7_danger_message 3 (.list ["username taken", "domain invalid"]) none ⟨none, none⟩).2.2
     ["username taken", "domain invalid"] rfl⟩

/-- C10: `getAuthStatus` and `getAnalysis` never propagate an error: whenever
the underlying `request` throws — Unauthorized, Forbidden, an application
error, a rethrown network error — they return null, and on success with no
(truthy) data they also return null. -/
theorem c10_null_on_error (retries : Nat) (outcomes : Nat → AttemptOutcome)
    (st : ClientState) :
    (∀ e, (request retries outcomes st).result = .err e →
      getAuthStatus retries outcomes st = none ∧ getAnalysis retries outcomes st = none) ∧
    (∀ env, (request retries outcomes st).result = .ok env →
      getAuthStatus retries outcomes st = jsOrNull env.data ∧
      getAnalysis retries outcomes st = jsOrNull env.data ∧
      (env.data = none → getAuthStatus retries outcomes st = none)) := by
  constructor
  · intro e he
    constructor <;> simp [getAuthStatus, getAnalysis, he]
  · intro env he
    refine ⟨?_, ?_, ?_⟩
    · simp [getAuthStatus, he]
    · simp [getAnalysis, he]
    · intro hd
      simp [getAuthStatus, he, hd, jsOrNull]

/-- C10 witness: with no retry budget and a 401 response, `request` throws
`Unauthorized`, yet both wrappers return null. -/
theorem c10_null_on_error_witness :
    getAuthStatus 0 (fun _ => .response 401 (.parseError "x")) ⟨some "tok", some "tok"⟩ =
      none ∧
    getAnalysis 0 (fun _ => .response 401 (.parseError "x")) ⟨some "tok", some "tok"⟩ =
      none :=
  (c10_null_on_error 0 (fun _ => .response 401 (.parseError "x"))
    ⟨some "tok", some "tok"⟩).1 .unauthorized rfl

/-! Character-level facts about the URL encoder, used for claim C8. -/

/-- Every unicode scalar value is below `0x110000`. -/
theorem char_toNat_lt_uniMax (c : Char) : c.toNat < 1114112 := by
  rcases c.valid with h | ⟨h1, h2⟩
  · exact Nat.lt_trans h (by norm_num)
  · exact h2

/-- UTF-8 encoding of a valid code point produces bytes below 256. -/
theorem utf8Bytes_lt (n : Nat) (hn : n < 1114112) : ∀ b ∈ utf8Bytes n, b < 256 := by
  intro b hb
  unfold utf8Bytes at hb
  split_ifs at hb with h1 h2 h3 <;>
    simp only [List.mem_cons, List.not_mem_nil, or_false] at hb
  · omega
  · rcases hb with rfl | rfl <;> omega
  · rcases hb with rfl | rfl | rfl <;> omega
  · rcases hb with rfl | rfl | rfl | rfl <;> omega

/-- Every character of a percent-encoded byte triple is `%` or an upper-case
hexadecimal digit. -/
theorem pctBytes_chars (ch : Char) (c : Char) (hc : c ∈ pctBytes ch) :
    c = Char.ofNat 37 ∨ ∃ n, n < 16 ∧ c = hexDigitChar n := by
  unfold pctBytes at hc
  rw [List.mem_flatMap] at hc
  obtain ⟨b, hb, hcb⟩ := hc
  have hb256 : b < 256 := utf8Bytes_lt ch.toNat (char_toNat_lt_uniMax ch) b hb
  simp only [List.mem_cons, List.not_mem_nil, or_false] at hcb
  rcases hcb with rfl | rfl | rfl
  · exact Or.inl rfl
  · exact Or.inr ⟨b / 16, by omega, rfl⟩
  · exact Or.inr ⟨b % 16, by omega, rfl⟩

/-- Every character the URL encoder emits is an unreserved character, a `%`,
or an upper-case hexadecimal digit. -/
theorem encodeCharList_chars (l : List Char) (c : Char) (hc : c ∈ encodeCharList l) :
    uriUnreserved c = true ∨ c = Char.ofNat 37 ∨ ∃ n, n < 16 ∧ c = hexDigitChar n := by
  induction l with
  | nil => simp [encodeCharList] at hc
  | cons x xs ih =>
    simp only [encodeCharList, List.mem_append] at hc
    rcases hc with hc | hc
    · by_cases hx : uriUnreserved x
      · rw [if_pos hx] at hc
        rcases List.mem_singleton.mp hc with rfl
        exact Or.inl hx
      · rw [if_neg hx] at hc
        exact Or.inr (pctBytes_chars x c hc)
    · exact ih hc

/-- No upper-case hexadecimal digit is `&`, `=` or `?`. -/
theorem hexDigitChar_not_sep : ∀ n, n < 16 →
    hexDigitChar n ≠ Char.ofNat 38 ∧ hexDigitChar n ≠ Char.ofNat 61 ∧
    hexDigitChar n ≠ Char.ofNat 63 := by decide

/-- No character the URL encoder can emit is `&`, `=` or `?`. -/
theorem encode_output_not_sep (c : Char)
    (h : uriUnreserved c = true ∨ c = Char.ofNat 37 ∨ ∃ n, n < 16 ∧ c = hexDigitChar n) :
    c ≠ Char.ofNat 38 ∧ c ≠ Char.ofNat 61 ∧ c ≠ Char.ofNat 63 := by
  rcases h with h | rfl | ⟨n, hn, rfl⟩
  · refine ⟨?_, ?_, ?_⟩ <;> rintro rfl <;> exact absurd h (by decide)
  · exact ⟨by decide, by decide, by decide⟩
  · exact hexDigitChar_not_sep n hn

/-- C8: the request URL is the fixed base followed by the literal "?query="
and the URL-encoded operation; the encoded operation contains no `&`, `=` or
`?`, so it stays a single query parameter and is never split; the transport
verb is exactly the one handed to `request`; and a body is attached (and
serialized) only for POST and PUT with a truthy payload. -/
theorem c8_url_and_verb (baseUrl query : String) (method : Method) (apiKey : String)
    (body : Option Json) :
    buildUrl baseUrl query = baseUrl ++ "?query=" ++ encodeURIComponent query ∧
    (∀ c ∈ (encodeURIComponent query).data,
      c ≠ Char.ofNat 38 ∧ c ≠ Char.ofNat 61 ∧ c ≠ Char.ofNat 63) ∧
    (buildOptions method apiKey body).method = method ∧
    ((buildOptions method apiKey body).body.isSome ↔
      (∃ b, body = some b ∧ jsTruthy b = true) ∧
        (method = .POST ∨ method = .PUT)) := by
  refine ⟨rfl, ?_, rfl, ?_⟩
  · intro c hc
    exact encode_output_not_sep c (encodeCharList_chars query.data c hc)
  · cases body with
    | none => simp [buildOptions]
    | some b =>
      have hrw : (buildOptions method apiKey (some b)).body.isSome =
          (jsTruthy b && (method == Method.POST || method == Method.PUT)) := by
        by_cases h : jsTruthy b && (method == Method.POST || method == Method.PUT)
        · simp [buildOptions, h]
        · simp [buildOptions, h]
      rw [hrw]
      simp [Bool.and_eq_true, Bool.or_eq_true]

/-- C8 witness: for the auth-status operation the encoded character `g` is
not a query separator. -/
theorem c8_url_and_verb_witness :
    Char.ofNat 103 ≠ Char.ofNat 38 ∧ Char.ofNat 103 ≠ Char.ofNat 61 ∧
    Char.ofNat 103 ≠ Char.ofNat 63 :=
  (c8_url_and_verb "/json_api.php" "get/user/auth" .POST "k"
    (some (.obj [("a", .num 1)]))).2.1 (Char.ofNat 103) (by decide)

end MaiMaiL
